import Mathlib

/-!
Verification development for the IncentivNetwork/ui-sdk UserOperation
assembly, gas-accounting and signing pipeline.

Bytes are modelled as `Nat` (values < 256 where it matters), byte strings as
`List Nat`, and JavaScript numbers as `ℚ` (for the gas arithmetic in
`calcPreVerificationGas` every intermediate value is an exact dyadic/small
rational, so IEEE floats compute the same values).  Asynchronous methods
with I/O are modelled as functions of an explicit oracle environment that
also record a trace of the external effects they perform.
-/

/-! ## Signature modes and sizes (src/calcPreVerificationGas.ts, src/utils/Types.ts) -/

inductive SignatureMode where
  | EOA
  | PASSKEY
deriving DecidableEq, Repr

/-- Signature sizes for different types (source `SignatureSizes`):
EOA 65 (r,s,v = 32+32+1), PASSKEY 536. -/
def SignatureSizes (m : SignatureMode) : Nat :=
  match m with
  | .EOA => 65
  | .PASSKEY => 536

/-- The owner object handed to `SimpleAccountAPI`: it either carries an
elliptic-curve public-key coordinate pair or not (source `hasPublicKey`
duck-type check). -/
structure Owner where
  publicKey : Option (String × String)

/-- Source `hasPublicKey(owner)`: the owner carries x/y coordinates. -/
def hasPublicKey (o : Owner) : Bool :=
  o.publicKey.isSome

/-- Source `SimpleAccountAPI.getSignatureMode`:
`hasPublicKey(this.owner) ? SignatureMode.PASSKEY : SignatureMode.EOA`. -/
def getSignatureMode (o : Owner) : SignatureMode :=
  if hasPublicKey o then .PASSKEY else .EOA

/-! ## Gas overheads (src/calcPreVerificationGas.ts) -/

/-- Source `GasOverheads`.  Numeric fields are JS numbers, modelled as `ℚ`. -/
structure GasOverheads where
  fixed : ℚ
  perUserOp : ℚ
  perUserOpWord : ℚ
  zeroByte : ℚ
  nonZeroByte : ℚ
  bundleSize : ℚ
  signatureMode : Option SignatureMode

/-- Source `DefaultGasOverheads`. -/
def DefaultGasOverheads : GasOverheads :=
  { fixed := 21000
    perUserOp := 26000
    perUserOpWord := 4
    zeroByte := 4
    nonZeroByte := 16
    bundleSize := 1
    signatureMode := some .EOA }

/-- A (resolved) UserOperation as consumed by `calcPreVerificationGas`:
address/uint fields as numbers, bytes fields as byte lists.  `signature` and
`preVerificationGas` are the two fields the caller may omit; the source
fills them with a dummy signature and 21000 (`{preVerificationGas: 21000,
signature: hexlify(Buffer.alloc(sigSize, 1)), ...userOp}`). -/
structure UserOp where
  sender : Nat
  nonce : Nat
  initCode : List Nat
  callData : List Nat
  callGasLimit : Nat
  verificationGasLimit : Nat
  preVerificationGas : Option Nat
  maxFeePerGas : Nat
  maxPriorityFeePerGas : Nat
  paymasterAndData : List Nat
  signature : Option (List Nat)

/-! ## ABI packing of a UserOperation

`packUserOp(op, false)` is imported by the source from `./utils/ERC4337Utils`,
a file of this repository that is not part of the snapshot (only its callers
are). -/

/-- Big-endian 32-byte word of a number (one head word of the ABI encoding). -/
def word32 (n : Nat) : List Nat :=
  (List.range 32).map (fun i => n / 256 ^ (31 - i) % 256)

/-- Right-pad a byte string with zeros to a multiple of 32 bytes. -/
def padRight32 (b : List Nat) : List Nat :=
  b ++ List.replicate ((32 - b.length % 32) % 32) 0

/-- Byte length of the tail encoding of one dynamic `bytes` value:
one length word plus the zero-padded data. -/
def dynTailLen (b : List Nat) : Nat :=
  32 + 32 * ((b.length + 31) / 32)

/-- Tail encoding of one dynamic `bytes` value: length word, then the data
zero-padded to a word multiple. -/
def dynTail (b : List Nat) : List Nat :=
  word32 b.length ++ padRight32 b

/-- Modelled from the spec: `packUserOp(op, false)` (utils/ERC4337Utils) is
referenced by `calcPreVerificationGas` but the file is missing from the
snapshot; the spec says to "build an ABI-packed byte representation of the
operation".  This is the standard ABI encoding of the tuple
(address sender, uint256 nonce, bytes initCode, bytes callData,
uint256 callGasLimit, uint256 verificationGasLimit, uint256 preVerificationGas,
uint256 maxFeePerGas, uint256 maxPriorityFeePerGas, bytes paymasterAndData,
bytes signature): 11 head words (dynamic fields replaced by byte offsets into
the encoding), then the four dynamic tails in field order. -/
def packUserOpBytes (sender nonce : Nat) (initCode callData : List Nat)
    (callGasLimit verificationGasLimit preVerificationGas maxFeePerGas
      maxPriorityFeePerGas : Nat)
    (paymasterAndData signature : List Nat) : List Nat :=
  word32 sender ++ word32 nonce ++
  word32 352 ++
  word32 (352 + dynTailLen initCode) ++
  word32 callGasLimit ++ word32 verificationGasLimit ++
  word32 preVerificationGas ++ word32 maxFeePerGas ++
  word32 maxPriorityFeePerGas ++
  word32 (352 + dynTailLen initCode + dynTailLen callData) ++
  word32 (352 + dynTailLen initCode + dynTailLen callData +
    dynTailLen paymasterAndData) ++
  dynTail initCode ++ dynTail callData ++ dynTail paymasterAndData ++
  dynTail signature

/-! ## calcPreVerificationGas (src/calcPreVerificationGas.ts) -/

/-- JavaScript `Math.round`: round half toward positive infinity. -/
def jsRound (q : ℚ) : ℤ :=
  Rat.floor (q + 1 / 2)

/-- Per-byte calldata cost (source `x => x === 0 ? ov.zeroByte : ov.nonZeroByte`). -/
def byteCost (ov : GasOverheads) (x : Nat) : ℚ :=
  if x = 0 then ov.zeroByte else ov.nonZeroByte

/-- The dummy signature the source packs when the caller supplied none:
`Buffer.alloc(sigSize, 1)` with `sigSize` selected by the signature mode
(`ov.signatureMode === SignatureMode.PASSKEY ? SignatureSizes.PASSKEY :
SignatureSizes.EOA`). -/
def dummySignatureFor (m : Option SignatureMode) : List Nat :=
  List.replicate (match m with
    | some .PASSKEY => SignatureSizes .PASSKEY
    | _ => SignatureSizes .EOA) 1

/-- The packed bytes `arrayify(packUserOp(p, false))` for the resolved
operation `p` (missing signature/preVerificationGas replaced by the dummy
signature and 21000). -/
def packedForGas (op : UserOp) (ov : GasOverheads) : List Nat :=
  packUserOpBytes op.sender op.nonce op.initCode op.callData
    op.callGasLimit op.verificationGasLimit
    (op.preVerificationGas.getD 21000) op.maxFeePerGas op.maxPriorityFeePerGas
    op.paymasterAndData
    (op.signature.getD (dummySignatureFor ov.signatureMode))

/-- Source `calcPreVerificationGas(userOp, overheads)`.  Note the source
computes `lengthInWord = (packed.length + 31) / 32` with JS number division
(an exact rational, not an integer ceiling), rounds the total with
`Math.round`, and returns `Math.max(ret, 49024)`. -/
def calcPreVerificationGas (op : UserOp) (ov : GasOverheads) : ℤ :=
  let packed := packedForGas op ov
  let lengthInWord : ℚ := ((packed.length : ℚ) + 31) / 32
  let callDataCost : ℚ := (packed.map (byteCost ov)).sum
  let ret := jsRound (callDataCost + ov.fixed / ov.bundleSize + ov.perUserOp +
    ov.perUserOpWord * lengthInWord)
  max ret 49024

/-- The gas formula as the specification words it: the per-word term uses the
integer ceiling `wordCount = ceil(byteLength / 32)`.  Written from the spec
for comparison with `calcPreVerificationGas` above. -/
def calcPreVerificationGasSpecCeil (op : UserOp) (ov : GasOverheads) : ℤ :=
  let packed := packedForGas op ov
  let wordCount : ℚ := ((packed.length + 31) / 32 : Nat)
  let callDataCost : ℚ := (packed.map (byteCost ov)).sum
  let ret := jsRound (callDataCost + ov.fixed / ov.bundleSize + ov.perUserOp +
    ov.perUserOpWord * wordCount)
  max ret 49024

/-! ## DER signature parsing (src/utils/WebAuthnService.ts, parseDerSignature) -/

/-- Source `if (r[0] === 0x00) { r = r.slice(1) }`. -/
def stripLeadZero (l : List Nat) : List Nat :=
  match l with
  | 0 :: t => t
  | _ => l

/-- Source `parseDerSignature(derSignature)`.  Sequential byte reads are
modelled with `List.get?`; a JS read past the end yields `undefined`, which
fails the corresponding comparison, and `slice` with an out-of-range bound
clamps, which `List.take`/`List.drop` also do.  When `derSignature[5+rLen]`
is `undefined` the JS code computes `slice(6+rLen, NaN) = []`; the `getD 0`
below reproduces that. -/
def parseDerSignature (der : List Nat) : Except String (List Nat × List Nat) :=
  if der.get? 0 ≠ some 0x30 then .error "Invalid signature format"
  else
    match der.get? 1 with
    | none => .error "Invalid signature length"
    | some len =>
      if len + 2 ≠ der.length then .error "Invalid signature length"
      else if der.get? 2 ≠ some 0x02 then .error "Invalid r marker"
      else
        match der.get? 3 with
        | none => .error "Invalid s marker"
        | some rLen =>
          let r := (der.drop 4).take rLen
          if der.get? (4 + rLen) ≠ some 0x02 then .error "Invalid s marker"
          else
            let sLen := (der.get? (5 + rLen)).getD 0
            let s := (der.drop (6 + rLen)).take sLen
            .ok (stripLeadZero r, stripLeadZero s)

/-- A minimal DER ECDSA signature: an ASN.1 SEQUENCE (single-byte length) of
two INTEGERs with contents `r` and `s`. -/
def derEncode (r s : List Nat) : List Nat :=
  0x30 :: (r.length + s.length + 4) :: 0x02 :: r.length :: (r ++ 0x02 :: s.length :: s)

/-! ## WebAuthn public keys (src/utils/WebAuthnPublicKey.ts) -/

structure WebAuthnPublicKey where
  x : List Nat
  y : List Nat
deriving DecidableEq, Repr

/-- Source `WebAuthnPublicKey` constructor: a coordinate shorter than 32
bytes is left-padded with zero bytes; anything else is stored unchanged. -/
def webAuthnPublicKeyMk (x y : List Nat) : WebAuthnPublicKey :=
  { x := if x.length < 32 then List.replicate (32 - x.length) 0 ++ x else x
    y := if y.length < 32 then List.replicate (32 - y.length) 0 ++ y else y }

/-- Source `WebAuthnPublicKey.fromAttetationObject` (name kept from the
source), after the outer CBOR decode has produced the `authData` bytes.
The trailing COSE-key CBOR decode (`cbor.decodeFirst` plus map lookups of
integer keys -2 and -3) is abstracted as the `coseDecode` argument, which
returns the raw x/y byte strings when both are present.  The byte-pointer
arithmetic mirrors the source: skip the 32-byte RP-ID hash, read the flags
byte, and if bit 0x40 is set skip the 4-byte sign count and 16-byte AAGUID,
read the 2-byte big-endian credential-id length at offsets 53/54, skip the
credential id, and decode the remainder. -/
def fromAttetationObject (authData : List Nat)
    (coseDecode : List Nat → Option (List Nat × List Nat)) :
    Except String WebAuthnPublicKey :=
  match authData.get? 32 with
  | none => .error "Attested credential data flag is missing."
  | some flags =>
    if flags &&& 0x40 ≠ 0 then
      let credIdLen := (authData.get? 53).getD 0 * 256 + (authData.get? 54).getD 0
      let publicKeyBytes := authData.drop (55 + credIdLen)
      match coseDecode publicKeyBytes with
      | some (rx, ry) => .ok (webAuthnPublicKeyMk rx ry)
      | none => .error "Public key coordinates are missing."
    else .error "Attested credential data flag is missing."

/-! ## The deployment-status ("phantom") cache (src/BaseAccountAPI.ts) -/

/-- Outcome of one `checkAccountPhantom()` call: the returned flag, the
cache value after the call, and whether `provider.getCode` was queried. -/
structure PhantomCheck where
  value : Bool
  newIsPhantom : Bool
  queriedChain : Bool
deriving DecidableEq, Repr

/-- Source `checkAccountPhantom()`: when the cached `isPhantom` flag is
already false the method returns immediately without querying the chain;
otherwise it queries `provider.getCode` (a hex string, `'0x'` when no code)
and clears the flag iff the string is longer than two characters. -/
def checkAccountPhantom (isPhantom : Bool) (codeAtAccount : String) : PhantomCheck :=
  if isPhantom = false then ⟨isPhantom, isPhantom, false⟩
  else if codeAtAccount.length > 2 then ⟨false, false, true⟩
  else ⟨true, true, true⟩

/-- A sequence of `checkAccountPhantom()` calls against successive on-chain
code observations: returned flags, final cache state, number of chain
queries issued. -/
def checkAccountPhantomRuns (isPhantom : Bool) (codes : List String) :
    List Bool × Bool × Nat :=
  match codes with
  | [] => ([], isPhantom, 0)
  | c :: rest =>
    let r := checkAccountPhantom isPhantom c
    let (vs, fin, q) := checkAccountPhantomRuns r.newIsPhantom rest
    (r.value :: vs, fin, (if r.queriedChain then 1 else 0) + q)

/-- Source `getInitCode()`: the account initialization code while the
account is phantom, `'0x'` once it is deployed.  Returns the value together
with the updated cache and whether the chain was queried. -/
def getInitCode (isPhantom : Bool) (codeAtAccount accountInitCode : String) :
    String × Bool × Bool :=
  let c := checkAccountPhantom isPhantom codeAtAccount
  (if c.value then accountInitCode else "0x", c.newIsPhantom, c.queriedChain)

/-! ## Effect-trace model of the asynchronous methods

Asynchronous methods are modelled as total functions of an oracle
environment; besides their `Except` result they record the list of external
interactions (provider / bundler / credential calls) they performed, in
order. -/

inductive Effect where
  | getCode
  | getNonce
  | rpcEstimate
  | encodeCall
  | encodeBatchCall
  | estimateGas
  | getFeeData
  | getNetwork
  | signHash
  | submit
deriving DecidableEq, Repr

/-- Result of an asynchronous method: an `Except` outcome plus the trace of
effects performed (also on the error path). -/
def MRes (α : Type) : Type :=
  Except String α × List Effect

/-- Sequencing for `MRes`: an error short-circuits; traces concatenate. -/
def mbind {α β : Type} (x : MRes α) (f : α → MRes β) : MRes β :=
  match x with
  | (.error e, t) => (.error e, t)
  | (.ok a, t) =>
    let y := f a
    (y.1, t ++ y.2)

instance : Monad MRes where
  pure a := (.ok a, [])
  bind := mbind

/-- Raise a JS exception (a thrown `Error`). -/
def throwS {α : Type} (e : String) : MRes α :=
  (.error e, [])

/-- Record one external interaction. -/
def tellEff (e : Effect) : MRes Unit :=
  (.ok (), [e])

/-! ## HttpRpcClient (HttpRpcClient.ts) -/

/-- The gas fields of a successful `eth_estimateUserOperationGas` response. -/
structure EstimateFields where
  callGasLimit : Nat
  preVerificationGas : Nat
  verificationGas : Nat
  maxFeePerGas : Nat
  maxPriorityFeePerGas : Nat
deriving DecidableEq, Repr

/-- The tagged result type of `HttpRpcClient.estimateUserOpGas`. -/
structure GasEstimate where
  callGasLimit : Nat
  preVerificationGas : Nat
  verificationGas : Nat
  maxFeePerGas : Nat
  maxPriorityFeePerGas : Nat
  success : Bool
  error : Option String
deriving DecidableEq, Repr

/-- A UserOperation as the builder and signer handle it (hex-string byte
fields, resolved numeric gas fields). -/
structure UserOpS where
  sender : String
  nonce : Nat
  initCode : String
  callData : String
  callGasLimit : Nat
  verificationGasLimit : Nat
  preVerificationGas : Nat
  maxFeePerGas : Nat
  maxPriorityFeePerGas : Nat
  paymasterAndData : String
  signature : String
deriving DecidableEq, Repr

/-- Transport-level oracle for `HttpRpcClient`: the outcome of awaiting
`this.initializing` (the constructor-started `validateChainId()`, which
throws on a chain-id mismatch or an unreachable relay), and the outcome of
the `eth_estimateUserOperationGas` JSON-RPC send for a given operation. -/
structure RpcEnv where
  chainIdCheck : Except String Unit
  sendEstimateGas : UserOpS → Except String EstimateFields

/-- The `try` block of `HttpRpcClient.estimateUserOpGas`: await the chain-id
validation, then send the estimation request; either step may throw. -/
def estimateUserOpGasTry (env : RpcEnv) (op : UserOpS) : Except String EstimateFields := do
  env.chainIdCheck
  env.sendEstimateGas op

/-- Source `HttpRpcClient.estimateUserOpGas(userOp1)`: wraps the try block;
on success returns the relay's fields tagged `success: true`, on any thrown
error returns zeroed fields, `success: false` and the error message.  The
method itself never throws. -/
def estimateUserOpGas (env : RpcEnv) (op : UserOpS) : GasEstimate :=
  match estimateUserOpGasTry env op with
  | .ok f =>
    { callGasLimit := f.callGasLimit
      preVerificationGas := f.preVerificationGas
      verificationGas := f.verificationGas
      maxFeePerGas := f.maxFeePerGas
      maxPriorityFeePerGas := f.maxPriorityFeePerGas
      success := true
      error := none }
  | .error msg =>
    { callGasLimit := 0
      preVerificationGas := 0
      verificationGas := 0
      maxFeePerGas := 0
      maxPriorityFeePerGas := 0
      success := false
      error := some msg }

/-! ## BaseAccountAPI builder methods (src/BaseAccountAPI.ts) -/

/-- Oracle environment for one `BaseAccountAPI` (and its signer): resolved
account state, provider responses and the owner credential. -/
structure AccountEnv where
  owner : Owner
  accountAddress : String
  nonceValue : Nat
  isPhantomFlag : Bool
  codeAtAccount : String
  accountInitCode : String
  encodeExecute : String → Nat → String → String
  encodeExecuteBatch : List String → List Nat → List String → String
  rpc : RpcEnv
  estimateGasValue : Nat
  feeMaxFee : Nat
  feeMaxPriority : Nat
  paymasterAndDataValue : Option String
  preVerificationGasOf : UserOpS → Nat
  hashUserOp : UserOpS → String
  signHashResult : String → String
  userOpResponse : String
  submitOutcome : UserOpS → Except String String

/-- Source `TransactionDetailsForUserOp`. -/
structure TxDetails where
  target : String
  data : String
  value : Option Nat
  gasLimit : Option Nat
  maxFeePerGas : Option Nat
  maxPriorityFeePerGas : Option Nat
  nonce : Option Nat

/-- Source `BatchTransactionDetailsForUserOp` / `BatchTransactionRequest`. -/
structure BatchTxDetails where
  targets : List String
  datas : List String
  values : List Nat
  gasLimit : Option Nat
  maxFeePerGas : Option Nat
  maxPriorityFeePerGas : Option Nat
  nonce : Option Nat

/-- The populated transaction request handed to
`ERC4337EthersSigner.sendTransaction`. -/
structure TxRequest where
  toAddr : Option String
  data : Option String
  value : Option Nat
  gasLimit : Option Nat

/-- Source `getVerificationGasLimit()`: a fixed allowance by signature mode. -/
def getVerificationGasLimitV (env : AccountEnv) : Nat :=
  if getSignatureMode env.owner = .PASSKEY then 500000 else 100000

/-- Source `checkAccountPhantom()` inside the effect model (same logic as
`checkAccountPhantom` above; the cache update is not threaded here because
the builder methods below call it at most once per run). -/
def checkAccountPhantomM (env : AccountEnv) : MRes Bool :=
  if env.isPhantomFlag = false then pure false
  else do
    tellEff .getCode
    if env.codeAtAccount.length > 2 then pure false else pure true

/-- Source `getInitCode()`. -/
def getInitCodeM (env : AccountEnv) : MRes String := do
  let ph ← checkAccountPhantomM env
  if ph then pure env.accountInitCode else pure "0x"

/-- Source `estimateCreationGas(initCode)`. -/
def estimateCreationGasM (env : AccountEnv) (initCode : String) : MRes Nat :=
  if initCode = "0x" then pure 0
  else do
    tellEff .estimateGas
    pure env.estimateGasValue

/-- Result record of `encodeUserOpCallDataAndGasLimit` and its batch twin. -/
structure EncodeResult where
  callData : String
  callGasLimit : Nat
  verificationGas : Nat
  verificationGasLimit : Nat
  preVerificationGas : Nat
  totalGas : Nat
  maxFeePerGas : Nat
  maxPriorityFeePerGas : Nat
deriving DecidableEq, Repr

/-- Source `encodeUserOpCallDataAndGasLimit(detailsForUserOp)`: encode the
single call; with a caller-supplied gas limit return it with zeroed
estimation fields, otherwise resolve init code, build the zero-gas operation
with a `'0x'` signature, optionally attach paymaster data, query the bundler
estimation, and throw if the tagged result reports failure. -/
def encodeUserOpCallDataAndGasLimitM (env : AccountEnv) (details : TxDetails) :
    MRes EncodeResult := do
  let value := details.value.getD 0
  tellEff .encodeCall
  let callData := env.encodeExecute details.target value details.data
  match details.gasLimit with
  | some gl =>
    pure { callData := callData, callGasLimit := gl, verificationGas := 0
           verificationGasLimit := 0, preVerificationGas := 0, totalGas := 0
           maxFeePerGas := 0, maxPriorityFeePerGas := 0 }
  | none => do
    let initCode ← getInitCodeM env
    let vgl := getVerificationGasLimitV env
    tellEff .getNonce
    let preOp : UserOpS :=
      { sender := env.accountAddress, nonce := env.nonceValue
        initCode := initCode, callData := callData
        callGasLimit := 0, verificationGasLimit := vgl
        preVerificationGas := 0
        maxFeePerGas := 0, maxPriorityFeePerGas := 0
        paymasterAndData := env.paymasterAndDataValue.getD "0x"
        signature := "0x" }
    tellEff .rpcEstimate
    let est := estimateUserOpGas env.rpc preOp
    if est.success = false then
      throwS (est.error.getD "Bundler gas estimation failed")
    else
      pure { callData := callData, callGasLimit := est.callGasLimit
             verificationGas := est.verificationGas
             verificationGasLimit := vgl
             preVerificationGas := est.preVerificationGas
             totalGas := vgl + est.callGasLimit + est.preVerificationGas
             maxFeePerGas := est.maxFeePerGas
             maxPriorityFeePerGas := est.maxPriorityFeePerGas }

/-- Source `encodeBatchUserOpCallDataAndGasLimit(detailsForUserOp)`: the
equal-length validation of targets/values/datas comes first, before the
batch call encoding and before any provider or bundler interaction. -/
def encodeBatchUserOpCallDataAndGasLimitM (env : AccountEnv) (details : BatchTxDetails) :
    MRes EncodeResult :=
  if details.targets.length ≠ details.values.length ∨
      details.targets.length ≠ details.datas.length then
    throwS "Batch operation arrays must have the same length"
  else do
    tellEff .encodeBatchCall
    let callData := env.encodeExecuteBatch details.targets details.values details.datas
    match details.gasLimit with
    | some gl =>
      pure { callData := callData, callGasLimit := gl, verificationGas := 0
             verificationGasLimit := 0, preVerificationGas := 0, totalGas := 0
             maxFeePerGas := 0, maxPriorityFeePerGas := 0 }
    | none => do
      let initCode ← getInitCodeM env
      let vgl := getVerificationGasLimitV env
      tellEff .getNonce
      let preOp : UserOpS :=
        { sender := env.accountAddress, nonce := env.nonceValue
          initCode := initCode, callData := callData
          callGasLimit := 0, verificationGasLimit := vgl
          preVerificationGas := 0
          maxFeePerGas := 0, maxPriorityFeePerGas := 0
          paymasterAndData := env.paymasterAndDataValue.getD "0x"
          signature := "0x" }
      tellEff .rpcEstimate
      let est := estimateUserOpGas env.rpc preOp
      if est.success = false then
        throwS (est.error.getD "Bundler gas estimation failed for batch operation")
      else
        pure { callData := callData, callGasLimit := est.callGasLimit
               verificationGas := est.verificationGas
               verificationGasLimit := vgl
               preVerificationGas := est.preVerificationGas
               totalGas := vgl + est.callGasLimit + est.preVerificationGas
               maxFeePerGas := est.maxFeePerGas
               maxPriorityFeePerGas := est.maxPriorityFeePerGas }

/-- Source `createUnsignedUserOp(info)`: encode call data and gas limits,
resolve init code and creation gas, fall back to provider fee data when the
caller did not pin fees, optionally obtain paymaster data, and fill
`preVerificationGas` last over the assembled operation. -/
def createUnsignedUserOpM (env : AccountEnv) (details : TxDetails) : MRes UserOpS := do
  let enc ← encodeUserOpCallDataAndGasLimitM env details
  let initCode ← getInitCodeM env
  let initGas ← estimateCreationGasM env initCode
  let vgl := getVerificationGasLimitV env + initGas
  if details.maxFeePerGas.isNone || details.maxPriorityFeePerGas.isNone then
    tellEff .getFeeData
  else
    pure ()
  let maxFeePerGas := details.maxFeePerGas.getD env.feeMaxFee
  let maxPriorityFeePerGas := details.maxPriorityFeePerGas.getD env.feeMaxPriority
  let nonce ←
    match details.nonce with
    | some n => pure n
    | none => do
      tellEff .getNonce
      pure env.nonceValue
  let preOp : UserOpS :=
    { sender := env.accountAddress, nonce := nonce
      initCode := initCode, callData := enc.callData
      callGasLimit := enc.callGasLimit, verificationGasLimit := vgl
      preVerificationGas := 0
      maxFeePerGas := maxFeePerGas, maxPriorityFeePerGas := maxPriorityFeePerGas
      paymasterAndData := env.paymasterAndDataValue.getD "0x"
      signature := "" }
  pure { preOp with preVerificationGas := env.preVerificationGasOf preOp }

/-- Source `createUnsignedBatchUserOp(info)`: same pipeline with the batch
encoding. -/
def createUnsignedBatchUserOpM (env : AccountEnv) (details : BatchTxDetails) : MRes UserOpS := do
  let enc ← encodeBatchUserOpCallDataAndGasLimitM env details
  let initCode ← getInitCodeM env
  let initGas ← estimateCreationGasM env initCode
  let vgl := getVerificationGasLimitV env + initGas
  if details.maxFeePerGas.isNone || details.maxPriorityFeePerGas.isNone then
    tellEff .getFeeData
  else
    pure ()
  let maxFeePerGas := details.maxFeePerGas.getD env.feeMaxFee
  let maxPriorityFeePerGas := details.maxPriorityFeePerGas.getD env.feeMaxPriority
  let nonce ←
    match details.nonce with
    | some n => pure n
    | none => do
      tellEff .getNonce
      pure env.nonceValue
  let preOp : UserOpS :=
    { sender := env.accountAddress, nonce := nonce
      initCode := initCode, callData := enc.callData
      callGasLimit := enc.callGasLimit, verificationGasLimit := vgl
      preVerificationGas := 0
      maxFeePerGas := maxFeePerGas, maxPriorityFeePerGas := maxPriorityFeePerGas
      paymasterAndData := env.paymasterAndDataValue.getD "0x"
      signature := "" }
  pure { preOp with preVerificationGas := env.preVerificationGasOf preOp }

/-- Source `signUserOp(userOp)`: compute the operation hash (`getUserOpHash`
reads the chain id from the provider), invoke the owner credential over it,
and return the operation with only the `signature` field replaced. -/
def signUserOpM (env : AccountEnv) (op : UserOpS) : MRes UserOpS := do
  tellEff .getNetwork
  let h := env.hashUserOp op
  tellEff .signHash
  pure { op with signature := env.signHashResult h }

/-- Source `createSignedUserOp(info)`. -/
def createSignedUserOpM (env : AccountEnv) (details : TxDetails) : MRes UserOpS := do
  let op ← createUnsignedUserOpM env details
  signUserOpM env op

/-- Source `createSignedBatchUserOp(info)`. -/
def createSignedBatchUserOpM (env : AccountEnv) (details : BatchTxDetails) : MRes UserOpS := do
  let op ← createUnsignedBatchUserOpM env details
  signUserOpM env op

/-- Source `ERC4337EthersSigner.sendTransaction(transaction)`: populate and
validate the request, build and sign the operation, then hand it to the
bundler (`sendUserOpToBundler`). -/
def sendTransactionM (env : AccountEnv) (tx : TxRequest) : MRes String := do
  match tx.toAddr with
  | none => throwS "Missing call target"
  | some toA =>
    if tx.data = none ∧ tx.value = none then
      throwS "Missing call data or value"
    else do
      let details : TxDetails :=
        { target := toA, data := tx.data.getD "", value := tx.value
          gasLimit := tx.gasLimit, maxFeePerGas := none
          maxPriorityFeePerGas := none, nonce := none }
      let op ← createSignedUserOpM env details
      tellEff .submit
      match env.submitOutcome op with
      | .ok _ => pure env.userOpResponse
      | .error e => throwS e

/-- Source `ERC4337EthersSigner.sendBatchTransaction(batchRequest)`:
`verifyAllNecessaryBatchFields` (non-empty targets, equal-length arrays)
runs before anything else, then the batch operation is built, signed and
submitted. -/
def sendBatchTransactionM (env : AccountEnv) (batch : BatchTxDetails) : MRes String := do
  if batch.targets.length = 0 then
    throwS "Empty batch request"
  else if batch.targets.length ≠ batch.datas.length ∨
      batch.targets.length ≠ batch.values.length then
    throwS "Batch arrays must have the same length"
  else do
    let op ← createSignedBatchUserOpM env batch
    tellEff .submit
    match env.submitOutcome op with
    | .ok _ => pure env.userOpResponse
    | .error e => throwS e

/-! ## Concrete inputs used in the closed statements below -/

/-- An EOA-mode operation with 600 bytes of 0xff call data (all other byte
fields empty, numeric fields zero, sender an all-0xff address). -/
def gasOpNonZero600 : UserOp :=
  { sender := 2 ^ 160 - 1
    nonce := 0
    initCode := []
    callData := List.replicate 600 255
    callGasLimit := 0
    verificationGasLimit := 0
    preVerificationGas := none
    maxFeePerGas := 0
    maxPriorityFeePerGas := 0
    paymasterAndData := []
    signature := none }

/-- The same operation with a one-byte-longer but all-zero call data. -/
def gasOpZero601 : UserOp :=
  { gasOpNonZero600 with callData := List.replicate 601 0 }

/-- A bundler transport for which every request fails (relay unreachable). -/
def failingRpc : RpcEnv :=
  { chainIdCheck := Except.error "bundler is unreachable"
    sendEstimateGas := fun _ => Except.error "bundler is unreachable" }

/-- A concrete account environment whose bundler transport fails. -/
def sampleEnv : AccountEnv :=
  { owner := ⟨none⟩
    accountAddress := "0xaa"
    nonceValue := 0
    isPhantomFlag := true
    codeAtAccount := "0x"
    accountInitCode := "0xff11"
    encodeExecute := fun _ _ _ => "0xcafe"
    encodeExecuteBatch := fun _ _ _ => "0xbeef"
    rpc := failingRpc
    estimateGasValue := 12345
    feeMaxFee := 7
    feeMaxPriority := 3
    paymasterAndDataValue := none
    preVerificationGasOf := fun _ => 49024
    hashUserOp := fun _ => "0xhash"
    signHashResult := fun _ => "0xsigned"
    userOpResponse := "resp"
    submitOutcome := fun _ => Except.ok "0xophash" }

/-- A concrete transaction request without a caller-pinned gas limit. -/
def sampleTx : TxRequest :=
  { toAddr := some "0x01", data := some "0x00", value := none, gasLimit := none }

/-- A batch whose targets/datas/values lengths disagree (1 / 0 / 1). -/
def mismatchedBatch : BatchTxDetails :=
  { targets := ["0x01"], datas := [], values := [0]
    gasLimit := none, maxFeePerGas := none, maxPriorityFeePerGas := none
    nonce := none }

/-! # Theorems -/

/-! ## Generic helper lemmas -/

theorem sum_byteCost_natCast (ov : GasOverheads) (zb nzb : ℕ)
    (hz : ov.zeroByte = zb) (hn : ov.nonZeroByte = nzb) :
    ∀ l : List Nat,
      (l.map (byteCost ov)).sum =
        (((l.map (fun x => if x = 0 then zb else nzb)).sum : ℕ) : ℚ)
  | [] => by simp
  | a :: t => by
    have ih := sum_byteCost_natCast ov zb nzb hz hn t
    by_cases ha : a = 0 <;> simp [byteCost, ha, hz, hn, ih]

theorem jsRound_eq (q : ℚ) (n : ℤ) (h1 : (n : ℚ) ≤ q + 1 / 2)
    (h2 : q + 1 / 2 < (n : ℚ) + 1) : jsRound q = n := by
  unfold jsRound
  have hle : (Rat.floor (q + 1 / 2) : ℚ) ≤ q + 1 / 2 := Rat.le_floor.mp le_rfl
  have hlow : n ≤ Rat.floor (q + 1 / 2) := Rat.le_floor.mpr h1
  have hhigh : Rat.floor (q + 1 / 2) < n + 1 := by
    have : (Rat.floor (q + 1 / 2) : ℚ) < (n : ℚ) + 1 := lt_of_le_of_lt hle h2
    exact_mod_cast this
  omega

theorem jsRound_mono {a b : ℚ} (h : a ≤ b) : jsRound a ≤ jsRound b := by
  unfold jsRound
  refine Rat.le_floor.mpr ?_
  have := Rat.le_floor.mp (le_refl (Rat.floor (a + 1 / 2)))
  linarith

theorem calcPreVerificationGas_eval (op : UserOp) (ov : GasOverheads)
    (zb nzb L S : ℕ) (n : ℤ)
    (hz : ov.zeroByte = zb) (hn : ov.nonZeroByte = nzb)
    (hL : (packedForGas op ov).length = L)
    (hS : ((packedForGas op ov).map (fun x => if x = 0 then zb else nzb)).sum = S)
    (h1 : (n : ℚ) ≤ (S : ℚ) + ov.fixed / ov.bundleSize + ov.perUserOp +
      ov.perUserOpWord * (((L : ℚ) + 31) / 32) + 1 / 2)
    (h2 : (S : ℚ) + ov.fixed / ov.bundleSize + ov.perUserOp +
      ov.perUserOpWord * (((L : ℚ) + 31) / 32) + 1 / 2 < (n : ℚ) + 1) :
    calcPreVerificationGas op ov = max n 49024 := by
  unfold calcPreVerificationGas
  dsimp only
  rw [sum_byteCost_natCast ov zb nzb hz hn, hS, hL]
  rw [jsRound_eq _ n h1 h2]

theorem calcPreVerificationGasSpecCeil_eval (op : UserOp) (ov : GasOverheads)
    (zb nzb L S : ℕ) (n : ℤ)
    (hz : ov.zeroByte = zb) (hn : ov.nonZeroByte = nzb)
    (hL : (packedForGas op ov).length = L)
    (hS : ((packedForGas op ov).map (fun x => if x = 0 then zb else nzb)).sum = S)
    (h1 : (n : ℚ) ≤ (S : ℚ) + ov.fixed / ov.bundleSize + ov.perUserOp +
      ov.perUserOpWord * (((L + 31) / 32 : ℕ) : ℚ) + 1 / 2)
    (h2 : (S : ℚ) + ov.fixed / ov.bundleSize + ov.perUserOp +
      ov.perUserOpWord * (((L + 31) / 32 : ℕ) : ℚ) + 1 / 2 < (n : ℚ) + 1) :
    calcPreVerificationGasSpecCeil op ov = max n 49024 := by
  unfold calcPreVerificationGasSpecCeil
  dsimp only
  rw [sum_byteCost_natCast ov zb nzb hz hn, hS, hL]
  rw [jsRound_eq _ n h1 h2]

/-! ## C1 -/

set_option maxRecDepth 100000 in
/-- C1: `calcPreVerificationGas` packs the operation with a mode-sized dummy
signature, sums per-byte calldata costs, adds `fixedOverhead/bundleSize +
perOperationOverhead + perWordOverhead*wordCount`, rounds to nearest and
clamps to the 49024 floor — but the per-word term does NOT use the integer
ceiling `ceil(byteLength/32)`: the source computes `lengthInWord =
(packed.length + 31) / 32` with JS number (exact) division.  At the concrete
operation below (packed byte length 1184, a multiple of 32) the code returns
60252 while the claimed ceiling formula gives 60248.  The floor part of the
claim holds: the result is always at least 49024. -/
theorem calcPreVerificationGas_word_term_divergence :
    calcPreVerificationGas gasOpNonZero600 DefaultGasOverheads = 60252 ∧
    calcPreVerificationGasSpecCeil gasOpNonZero600 DefaultGasOverheads = 60248 ∧
    ∀ (op : UserOp) (ov : GasOverheads), 49024 ≤ calcPreVerificationGas op ov := by
  refine ⟨?_, ?_, ?_⟩
  · have h := calcPreVerificationGas_eval gasOpNonZero600 DefaultGasOverheads
      4 16 1184 13100 60252
      (by norm_num [DefaultGasOverheads]) (by norm_num [DefaultGasOverheads])
      (by decide) (by decide)
      (by norm_num [DefaultGasOverheads]) (by norm_num [DefaultGasOverheads])
    rw [h]; decide
  · have h := calcPreVerificationGasSpecCeil_eval gasOpNonZero600 DefaultGasOverheads
      4 16 1184 13100 60248
      (by norm_num [DefaultGasOverheads]) (by norm_num [DefaultGasOverheads])
      (by decide) (by decide)
      (by norm_num [DefaultGasOverheads]) (by norm_num [DefaultGasOverheads])
    rw [h]; decide
  · intro op ov
    unfold calcPreVerificationGas
    dsimp only
    exact le_max_right _ _

/-! ## C2: counterexample -/

set_option maxRecDepth 100000 in
/-- C2 fails as stated: `gasOpZero601` is identical to `gasOpNonZero600`
except for its call data, its call data is one byte longer, yet its
`calcPreVerificationGas` is strictly smaller (53052 < 60252), because the
cost of a calldata byte depends on its value (zero 4 gas, nonzero 16 gas),
not only on the byte count. -/
theorem calcPreVerificationGas_not_monotone_in_callData_length :
    gasOpNonZero600.callData.length < gasOpZero601.callData.length ∧
    gasOpZero601 = { gasOpNonZero600 with callData := gasOpZero601.callData } ∧
    calcPreVerificationGas gasOpZero601 DefaultGasOverheads <
      calcPreVerificationGas gasOpNonZero600 DefaultGasOverheads := by
  refine ⟨by decide, rfl, ?_⟩
  have h1 := calcPreVerificationGas_eval gasOpNonZero600 DefaultGasOverheads
    4 16 1184 13100 60252
    (by norm_num [DefaultGasOverheads]) (by norm_num [DefaultGasOverheads])
    (by decide) (by decide)
    (by norm_num [DefaultGasOverheads]) (by norm_num [DefaultGasOverheads])
  have h2 := calcPreVerificationGas_eval gasOpZero601 DefaultGasOverheads
    4 16 1184 5900 53052
    (by norm_num [DefaultGasOverheads]) (by norm_num [DefaultGasOverheads])
    (by decide) (by decide)
    (by norm_num [DefaultGasOverheads]) (by norm_num [DefaultGasOverheads])
  rw [h1, h2]; decide

/-! ## C2: the amended monotonicity that does hold -/

theorem forall₂_zeroDom_refl (l : List Nat) :
    List.Forall₂ (fun a b => b = 0 → a = 0) l l :=
  List.forall₂_same.mpr (fun _ _ h => h)

theorem byteCost_mono (ov : GasOverheads) (hz : ov.zeroByte ≤ ov.nonZeroByte)
    {a b : Nat} (h : b = 0 → a = 0) : byteCost ov a ≤ byteCost ov b := by
  unfold byteCost
  by_cases hb : b = 0
  · simp [hb, h hb]
  · simp only [hb, if_false]
    by_cases ha : a = 0
    · simp [ha, hz]
    · simp [ha]

theorem sum_byteCost_mono (ov : GasOverheads) (hz : ov.zeroByte ≤ ov.nonZeroByte)
    {l1 l2 : List Nat} (h : List.Forall₂ (fun a b => b = 0 → a = 0) l1 l2) :
    (l1.map (byteCost ov)).sum ≤ (l2.map (byteCost ov)).sum := by
  induction h with
  | nil => simp
  | cons hab _ ih =>
    simp only [List.map_cons, List.sum_cons]
    exact add_le_add (byteCost_mono ov hz hab) ih

theorem packedForGas_split (op : UserOp) (ov : GasOverheads) :
    packedForGas op ov =
      (word32 op.sender ++ word32 op.nonce ++ word32 352 ++
       word32 (352 + dynTailLen op.initCode) ++ word32 op.callGasLimit ++
       word32 op.verificationGasLimit ++ word32 (op.preVerificationGas.getD 21000) ++
       word32 op.maxFeePerGas ++ word32 op.maxPriorityFeePerGas ++
       word32 (352 + dynTailLen op.initCode + dynTailLen op.callData) ++
       word32 (352 + dynTailLen op.initCode + dynTailLen op.callData +
         dynTailLen op.paymasterAndData) ++
       dynTail op.initCode ++ word32 op.callData.length) ++
      (padRight32 op.callData ++
       (dynTail op.paymasterAndData ++
        dynTail (op.signature.getD (dummySignatureFor ov.signatureMode)))) := by
  unfold packedForGas packUserOpBytes dynTail
  simp [List.append_assoc]

theorem packedForGas_rel (op : UserOp) (ov : GasOverheads) (cd1 cd2 : List Nat)
    (hlen : cd1.length = cd2.length)
    (hdom : List.Forall₂ (fun a b => b = 0 → a = 0) cd1 cd2) :
    List.Forall₂ (fun a b => b = 0 → a = 0)
      (packedForGas { op with callData := cd1 } ov)
      (packedForGas { op with callData := cd2 } ov) := by
  have hpad : List.Forall₂ (fun a b => b = 0 → a = 0) (padRight32 cd1) (padRight32 cd2) := by
    unfold padRight32
    rw [hlen]
    exact List.rel_append hdom (forall₂_zeroDom_refl _)
  rw [packedForGas_split, packedForGas_split]
  dsimp only
  rw [hlen, show dynTailLen cd1 = dynTailLen cd2 from by unfold dynTailLen; rw [hlen]]
  exact List.rel_append (forall₂_zeroDom_refl _)
    (List.rel_append hpad (forall₂_zeroDom_refl _))

/-- C2 (amended): with everything else fixed, `calcPreVerificationGas` is
monotone in the call data when the two call datas have the same byte length
and every byte position that is zero in the second is also zero in the first
(so the first has pointwise per-byte cost at most the second's).
Monotonicity in the byte length alone does not hold (see the counterexample
above). -/
theorem calcPreVerificationGas_mono_callData (op : UserOp) (ov : GasOverheads)
    (cd1 cd2 : List Nat) (hz : ov.zeroByte ≤ ov.nonZeroByte)
    (hlen : cd1.length = cd2.length)
    (hdom : List.Forall₂ (fun a b => b = 0 → a = 0) cd1 cd2) :
    calcPreVerificationGas { op with callData := cd1 } ov ≤
      calcPreVerificationGas { op with callData := cd2 } ov := by
  have hrel := packedForGas_rel op ov cd1 cd2 hlen hdom
  have hlen2 : (packedForGas { op with callData := cd1 } ov).length =
      (packedForGas { op with callData := cd2 } ov).length := hrel.length_eq
  have hsum := sum_byteCost_mono ov hz hrel
  unfold calcPreVerificationGas
  dsimp only
  rw [hlen2]
  refine max_le_max (jsRound_mono ?_) le_rfl
  linarith

/-- Witness for the amended C2 at a concrete input: an all-zero one-byte
call data costs at most an all-nonzero one-byte call data. -/
theorem calcPreVerificationGas_mono_callData_witness :
    calcPreVerificationGas { gasOpNonZero600 with callData := [0] } DefaultGasOverheads ≤
      calcPreVerificationGas { gasOpNonZero600 with callData := [1] } DefaultGasOverheads :=
  calcPreVerificationGas_mono_callData gasOpNonZero600 DefaultGasOverheads [0] [1]
    (by norm_num [DefaultGasOverheads]) rfl
    (List.Forall₂.cons (fun h => by omega) List.Forall₂.nil)

/-! ## C3 -/

theorem stripLeadZero_of_head (l : List Nat) (h : l.head? ≠ some 0) :
    stripLeadZero l = l := by
  match l with
  | [] => rfl
  | a :: t =>
    match a with
    | 0 => simp at h
    | Nat.succ _ => rfl

/-- C3: for every minimal DER-encoded ECDSA signature (SEQUENCE of two
INTEGERs, single-byte lengths) whose r and s contents carry no leading zero
byte, `parseDerSignature` returns exactly the integer contents, so
re-encoding them yields the original bytes. -/
theorem parseDerSignature_derEncode (r s : List Nat)
    (hr : r.head? ≠ some 0) (hs : s.head? ≠ some 0)
    (_hsz : r.length + s.length + 4 ≤ 255) :
    parseDerSignature (derEncode r s) = .ok (r, s) := by
  have h4 : (derEncode r s).get? (4 + r.length) = some 0x02 := by
    unfold derEncode
    rw [Nat.add_comm 4 r.length]
    show (r ++ 0x02 :: s.length :: s).get? r.length = some 0x02
    rw [List.get?_append_right le_rfl]
    simp
  have h5 : (derEncode r s).get? (5 + r.length) = some s.length := by
    unfold derEncode
    rw [Nat.add_comm 5 r.length]
    show (r ++ 0x02 :: s.length :: s).get? (r.length + 1) = some s.length
    rw [List.get?_append_right (Nat.le_add_right _ _)]
    simp
  have hd6 : (derEncode r s).drop (6 + r.length) = s := by
    unfold derEncode
    rw [Nat.add_comm 6 r.length]
    show (r ++ 0x02 :: s.length :: s).drop (r.length + 2) = s
    rw [List.drop_append]
    rfl
  have hlen : (derEncode r s).length = r.length + s.length + 6 := by
    unfold derEncode
    simp [List.length_append]
    omega
  unfold parseDerSignature
  have e0 : (derEncode r s).get? 0 = some 0x30 := rfl
  have e1 : (derEncode r s).get? 1 = some (r.length + s.length + 4) := rfl
  have e2 : (derEncode r s).get? 2 = some 0x02 := rfl
  have e3 : (derEncode r s).get? 3 = some r.length := rfl
  have hd4 : (derEncode r s).drop 4 = r ++ 0x02 :: s.length :: s := rfl
  rw [e0, e1, e2, e3, hlen]
  rw [if_neg (by simp)]
  dsimp only
  rw [if_neg (by omega)]
  rw [if_neg (by simp)]
  rw [h4]
  rw [if_neg (by simp)]
  rw [h5, hd6, hd4]
  dsimp only [Option.getD]
  rw [List.take_left, List.take_length, stripLeadZero_of_head r hr,
    stripLeadZero_of_head s hs]

/-- Witness for C3 at a concrete signature: r = 0x0102, s = 0x03. -/
theorem parseDerSignature_derEncode_witness :
    parseDerSignature (derEncode [1, 2] [3]) = .ok ([1, 2], [3]) :=
  parseDerSignature_derEncode [1, 2] [3] (by simp) (by simp) (by simp)

/-! ## C4 -/

/-- C4: the dummy signature used for gas estimation (as selected inside
`calcPreVerificationGas` from the signature mode reported by
`getSignatureMode`) is exactly 65 bytes when the signing identity carries no
public-key coordinate pair and exactly 536 bytes when it carries one. -/
theorem dummySignature_size_by_mode (ow : Owner) :
    (ow.publicKey = none →
      (dummySignatureFor (some (getSignatureMode ow))).length = 65) ∧
    (ow.publicKey ≠ none →
      (dummySignatureFor (some (getSignatureMode ow))).length = 536) := by
  constructor
  · intro h
    have hm : getSignatureMode ow = .EOA := by
      simp [getSignatureMode, hasPublicKey, h]
    unfold dummySignatureFor
    rw [hm, List.length_replicate]
    rfl
  · intro h
    have hsome : ow.publicKey.isSome = true := Option.isSome_iff_ne_none.mpr h
    have hm : getSignatureMode ow = .PASSKEY := by
      simp [getSignatureMode, hasPublicKey, hsome]
    unfold dummySignatureFor
    rw [hm, List.length_replicate]
    rfl

/-- Witness for C4 at concrete identities: a plain signer and a passkey
signer. -/
theorem dummySignature_size_by_mode_witness :
    (dummySignatureFor (some (getSignatureMode ⟨none⟩))).length = 65 ∧
    (dummySignatureFor (some (getSignatureMode ⟨some ("01", "02")⟩))).length = 536 :=
  ⟨(dummySignature_size_by_mode ⟨none⟩).1 rfl,
   (dummySignature_size_by_mode ⟨some ("01", "02")⟩).2 (by simp)⟩

/-! ## C8: counterexample and amended invariant -/

/-- C8 fails as stated: the codec constructor only left-pads coordinates
shorter than 32 bytes; a 33-byte x coordinate is stored unchanged, so the
stored x is not 32 bytes. -/
theorem webAuthnPublicKey_33byte_coordinate_not_32 :
    (webAuthnPublicKeyMk (List.replicate 33 1) (List.replicate 32 1)).x.length = 33 := by
  decide

theorem webAuthnPublicKeyMk_shape (u v : List Nat)
    (hu : u.length ≤ 32) (hv : v.length ≤ 32) :
    (webAuthnPublicKeyMk u v).x.length = 32 ∧
    (webAuthnPublicKeyMk u v).y.length = 32 ∧
    (webAuthnPublicKeyMk u v).x = List.replicate (32 - u.length) 0 ++ u ∧
    (webAuthnPublicKeyMk u v).y = List.replicate (32 - v.length) 0 ++ v := by
  have ex : (webAuthnPublicKeyMk u v).x = List.replicate (32 - u.length) 0 ++ u := by
    show (if u.length < 32 then List.replicate (32 - u.length) 0 ++ u else u) =
      List.replicate (32 - u.length) 0 ++ u
    by_cases h : u.length < 32
    · rw [if_pos h]
    · have h32 : u.length = 32 := by omega
      rw [if_neg h, h32]
      simp
  have ey : (webAuthnPublicKeyMk u v).y = List.replicate (32 - v.length) 0 ++ v := by
    show (if v.length < 32 then List.replicate (32 - v.length) 0 ++ v else v) =
      List.replicate (32 - v.length) 0 ++ v
    by_cases h : v.length < 32
    · rw [if_pos h]
    · have h32 : v.length = 32 := by omega
      rw [if_neg h, h32]
      simp
  refine ⟨?_, ?_, ex, ey⟩
  · rw [ex]
    simp
    omega
  · rw [ey]
    simp
    omega

/-- C8 (amended): whenever the raw coordinates are at most 32 bytes — as
with any P-256 COSE key — the stored coordinates are each exactly 32 bytes,
left-zero-padded when the raw coordinate was shorter; and any key
successfully extracted by `fromAttetationObject` from an attestation object
(attested-credential-data flag set) whose COSE decode yields ≤32-byte raw
coordinates also has exactly 32-byte stored coordinates. -/
theorem webAuthnPublicKey_coords_32 (x y : List Nat)
    (hx : x.length ≤ 32) (hy : y.length ≤ 32) :
    ((webAuthnPublicKeyMk x y).x.length = 32 ∧
     (webAuthnPublicKeyMk x y).y.length = 32 ∧
     (webAuthnPublicKeyMk x y).x = List.replicate (32 - x.length) 0 ++ x ∧
     (webAuthnPublicKeyMk x y).y = List.replicate (32 - y.length) 0 ++ y) ∧
    ∀ (authData : List Nat) (coseDecode : List Nat → Option (List Nat × List Nat)),
      (∀ b p, coseDecode b = some p → p.1.length ≤ 32 ∧ p.2.length ≤ 32) →
      ∀ pk, fromAttetationObject authData coseDecode = .ok pk →
        pk.x.length = 32 ∧ pk.y.length = 32 := by
  refine ⟨webAuthnPublicKeyMk_shape x y hx hy, ?_⟩
  intro authData coseDecode hdec pk hok
  unfold fromAttetationObject at hok
  split at hok
  · exact absurd hok (by simp)
  · split at hok
    · dsimp only at hok
      split at hok
      · rename_i rx ry hcd
        have hpk : webAuthnPublicKeyMk rx ry = pk := by
          simpa using hok
        have hlen := hdec _ _ hcd
        have hshape := webAuthnPublicKeyMk_shape rx ry hlen.1 hlen.2
        rw [← hpk]
        exact ⟨hshape.1, hshape.2.1⟩
      · exact absurd hok (by simp)
    · exact absurd hok (by simp)

/-- Witness for the amended C8 at a concrete key: a 1-byte x coordinate and
a full 32-byte y coordinate. -/
theorem webAuthnPublicKey_coords_32_witness :
    (webAuthnPublicKeyMk [1] (List.replicate 32 2)).x.length = 32 ∧
    (webAuthnPublicKeyMk [1] (List.replicate 32 2)).x = List.replicate 31 0 ++ [1] :=
  ⟨((webAuthnPublicKey_coords_32 [1] (List.replicate 32 2) (by decide) (by decide)).1).1,
   by
    have h :=
      ((webAuthnPublicKey_coords_32 [1] (List.replicate 32 2) (by decide) (by decide)).1).2.2.1
    simpa using h⟩

/-! ## C9 -/

/-- C9: the deployment-status cache is monotonic.  (1) From a cleared
(deployed) state, any sequence of further `checkAccountPhantom` calls
returns false every time, never queries the chain, and leaves the flag
cleared.  (2) The flag never transitions from deployed (false) back to
phantom (true).  (3) Once the flag is cleared, `getInitCode` returns the
empty byte string `'0x'` without querying the chain.  (4) A call that
observes on-chain code (a `getCode` string longer than `'0x'`) clears the
flag. -/
theorem phantom_cache_monotonic :
    (∀ codes : List String,
      checkAccountPhantomRuns false codes = (List.replicate codes.length false, false, 0)) ∧
    (∀ (isPh : Bool) (code : String),
      (checkAccountPhantom isPh code).newIsPhantom = true → isPh = true) ∧
    (∀ code init, (getInitCode false code init).1 = "0x" ∧
      (getInitCode false code init).2.2 = false) ∧
    (∀ code : String, code.length > 2 →
      checkAccountPhantom true code = ⟨false, false, true⟩) := by
  refine ⟨?_, ?_, ?_, ?_⟩
  · intro codes
    induction codes with
    | nil => rfl
    | cons c rest ih =>
      simp [checkAccountPhantomRuns, checkAccountPhantom, ih, List.replicate_succ]
  · intro isPh code h
    cases isPh with
    | false => simp [checkAccountPhantom] at h
    | true => rfl
  · intro code init
    exact ⟨rfl, rfl⟩
  · intro code h
    simp [checkAccountPhantom, h]

/-- Witness for C9 at concrete states: two further checks after deployment
return false with zero chain queries; a check observing code clears the
flag. -/
theorem phantom_cache_monotonic_witness :
    checkAccountPhantomRuns false ["0xdeadbeef", "0x"] = ([false, false], false, 0) ∧
    (getInitCode false "0x60ff" "0xinit").1 = "0x" ∧
    checkAccountPhantom true "0xabc" = ⟨false, false, true⟩ ∧
    true = true :=
  ⟨by
    have h := phantom_cache_monotonic.1 ["0xdeadbeef", "0x"]
    simpa using h,
   (phantom_cache_monotonic.2.2.1 "0x60ff" "0xinit").1,
   phantom_cache_monotonic.2.2.2 "0xabc" (by decide),
   phantom_cache_monotonic.2.1 true "0x" (by decide)⟩

/-! ## C6 -/

theorem mres_bind_def {α β : Type} (x : MRes α) (f : α → MRes β) :
    (x >>= f) = mbind x f := rfl

theorem mres_pure_def {α : Type} (a : α) : (pure a : MRes α) = (.ok a, []) := rfl

/-- C6: `estimateUserOpGas` never throws: for every operation and every
outcome of the chain-id validation and of the estimation transport, it
returns a tagged record — the bundler's gas fields with `success := true` on
success, and zeroed gas fields with `success := false` plus the error
message on any failure. -/
theorem estimateUserOpGas_tagged (env : RpcEnv) (op : UserOpS) :
    (∃ f, env.chainIdCheck = .ok () ∧ env.sendEstimateGas op = .ok f ∧
      estimateUserOpGas env op =
        { callGasLimit := f.callGasLimit
          preVerificationGas := f.preVerificationGas
          verificationGas := f.verificationGas
          maxFeePerGas := f.maxFeePerGas
          maxPriorityFeePerGas := f.maxPriorityFeePerGas
          success := true, error := none }) ∨
    (∃ msg, estimateUserOpGas env op =
        { callGasLimit := 0, preVerificationGas := 0, verificationGas := 0
          maxFeePerGas := 0, maxPriorityFeePerGas := 0
          success := false, error := some msg }) := by
  cases hc : env.chainIdCheck with
  | error e =>
    right
    refine ⟨e, ?_⟩
    unfold estimateUserOpGas estimateUserOpGasTry
    rw [hc]
    rfl
  | ok u =>
    cases u
    cases hs : env.sendEstimateGas op with
    | error e =>
      right
      refine ⟨e, ?_⟩
      unfold estimateUserOpGas estimateUserOpGasTry
      rw [hc]
      show (match env.sendEstimateGas op with
        | .ok f => _ | .error msg => _ : GasEstimate) = _
      rw [hs]
    | ok f =>
      left
      refine ⟨f, rfl, rfl, ?_⟩
      unfold estimateUserOpGas estimateUserOpGasTry
      rw [hc]
      show (match env.sendEstimateGas op with
        | .ok f => _ | .error msg => _ : GasEstimate) = _
      rw [hs]

/-! ## C10 -/

/-- C10: `signUserOp` only replaces the signature: the returned operation
agrees with the input on sender, nonce, initCode, callData, callGasLimit,
verificationGasLimit, preVerificationGas, maxFeePerGas,
maxPriorityFeePerGas and paymasterAndData, and its signature is the one the
owner credential produced over the operation hash. -/
theorem signUserOp_frame (env : AccountEnv) (op : UserOpS) :
    ∃ op', (signUserOpM env op).1 = .ok op' ∧
      op'.sender = op.sender ∧ op'.nonce = op.nonce ∧
      op'.initCode = op.initCode ∧ op'.callData = op.callData ∧
      op'.callGasLimit = op.callGasLimit ∧
      op'.verificationGasLimit = op.verificationGasLimit ∧
      op'.preVerificationGas = op.preVerificationGas ∧
      op'.maxFeePerGas = op.maxFeePerGas ∧
      op'.maxPriorityFeePerGas = op.maxPriorityFeePerGas ∧
      op'.paymasterAndData = op.paymasterAndData ∧
      op'.signature = env.signHashResult (env.hashUserOp op) :=
  ⟨{ op with signature := env.signHashResult (env.hashUserOp op) },
    rfl, rfl, rfl, rfl, rfl, rfl, rfl, rfl, rfl, rfl, rfl, rfl⟩

/-! ## C5 -/

/-- C5: a batch whose targets/values/datas lengths disagree fails with the
validation error before any effect is performed: the batch encode method,
the unsigned-batch builder and the signer entry point all return an error
with an empty effect trace — no call encoding, no provider or bundler
interaction, no signature, no submission. -/
theorem batch_length_mismatch_fails_first (env : AccountEnv) (details : BatchTxDetails)
    (h : details.targets.length ≠ details.values.length ∨
      details.targets.length ≠ details.datas.length) :
    encodeBatchUserOpCallDataAndGasLimitM env details =
      (.error "Batch operation arrays must have the same length", []) ∧
    createUnsignedBatchUserOpM env details =
      (.error "Batch operation arrays must have the same length", []) ∧
    (∃ msg, (sendBatchTransactionM env details).1 = .error msg) ∧
    (sendBatchTransactionM env details).2 = [] := by
  have he : encodeBatchUserOpCallDataAndGasLimitM env details =
      (.error "Batch operation arrays must have the same length", []) := by
    unfold encodeBatchUserOpCallDataAndGasLimitM
    rw [if_pos h]
    rfl
  refine ⟨he, ?_, ?_⟩
  · unfold createUnsignedBatchUserOpM
    rw [mres_bind_def, he]
    rfl
  · unfold sendBatchTransactionM
    by_cases h0 : details.targets.length = 0
    · rw [if_pos h0]
      exact ⟨⟨"Empty batch request", rfl⟩, rfl⟩
    · rw [if_neg h0, if_pos (by tauto)]
      exact ⟨⟨"Batch arrays must have the same length", rfl⟩, rfl⟩

/-- Witness for C5 at a concrete mismatched batch (1 target, 0 datas,
1 value) against a concrete environment. -/
theorem batch_length_mismatch_fails_first_witness :
    createUnsignedBatchUserOpM sampleEnv mismatchedBatch =
      (.error "Batch operation arrays must have the same length", []) ∧
    (sendBatchTransactionM sampleEnv mismatchedBatch).2 = [] := by
  have h := batch_length_mismatch_fails_first sampleEnv mismatchedBatch
    (Or.inr (by decide))
  exact ⟨h.2.1, h.2.2.2⟩

/-! ## C7 -/

theorem encodeUserOp_fail (env : AccountEnv) (details : TxDetails)
    (hgl : details.gasLimit = none)
    (hfail : ∀ op, (estimateUserOpGas env.rpc op).success = false) :
    ∃ msg t, encodeUserOpCallDataAndGasLimitM env details = (.error msg, t) ∧
      Effect.signHash ∉ t ∧ Effect.submit ∉ t := by
  by_cases hph : env.isPhantomFlag = false
  · exact ⟨((estimateUserOpGas env.rpc
        { sender := env.accountAddress, nonce := env.nonceValue, initCode := "0x"
          callData := env.encodeExecute details.target (details.value.getD 0) details.data
          callGasLimit := 0, verificationGasLimit := getVerificationGasLimitV env
          preVerificationGas := 0, maxFeePerGas := 0, maxPriorityFeePerGas := 0
          paymasterAndData := env.paymasterAndDataValue.getD "0x"
          signature := "0x" }).error.getD "Bundler gas estimation failed"),
      [Effect.encodeCall, Effect.getNonce, Effect.rpcEstimate],
      by
        simp [encodeUserOpCallDataAndGasLimitM, getInitCodeM, checkAccountPhantomM,
          mres_bind_def, mbind, tellEff, pure, throwS, hgl, hph, hfail],
      by decide, by decide⟩
  · by_cases hcode : env.codeAtAccount.length > 2
    · exact ⟨((estimateUserOpGas env.rpc
          { sender := env.accountAddress, nonce := env.nonceValue, initCode := "0x"
            callData := env.encodeExecute details.target (details.value.getD 0) details.data
            callGasLimit := 0, verificationGasLimit := getVerificationGasLimitV env
            preVerificationGas := 0, maxFeePerGas := 0, maxPriorityFeePerGas := 0
            paymasterAndData := env.paymasterAndDataValue.getD "0x"
            signature := "0x" }).error.getD "Bundler gas estimation failed"),
        [Effect.encodeCall, Effect.getCode, Effect.getNonce, Effect.rpcEstimate],
        by
          simp [encodeUserOpCallDataAndGasLimitM, getInitCodeM, checkAccountPhantomM,
            mres_bind_def, mbind, tellEff, pure, throwS, hgl, hph, hcode, hfail],
        by decide, by decide⟩
    · exact ⟨((estimateUserOpGas env.rpc
          { sender := env.accountAddress, nonce := env.nonceValue
            initCode := env.accountInitCode
            callData := env.encodeExecute details.target (details.value.getD 0) details.data
            callGasLimit := 0, verificationGasLimit := getVerificationGasLimitV env
            preVerificationGas := 0, maxFeePerGas := 0, maxPriorityFeePerGas := 0
            paymasterAndData := env.paymasterAndDataValue.getD "0x"
            signature := "0x" }).error.getD "Bundler gas estimation failed"),
        [Effect.encodeCall, Effect.getCode, Effect.getNonce, Effect.rpcEstimate],
        by
          simp [encodeUserOpCallDataAndGasLimitM, getInitCodeM, checkAccountPhantomM,
            mres_bind_def, mbind, tellEff, pure, throwS, hgl, hph, hcode, hfail],
        by decide, by decide⟩

/-- C7: whenever the bundler gas estimation comes back as a failure result
and no caller-pinned gas limit bypasses it, the pipeline stops before the
signing stage: `createUnsignedUserOp` (and hence `createSignedUserOp`)
returns an error, no signature is computed (no `signHash` effect), and the
signer's `sendTransaction` never submits (no `submit` effect). -/
theorem estimation_failure_stops_before_signing (env : AccountEnv) (tx : TxRequest)
    (hgl : tx.gasLimit = none)
    (hfail : ∀ op, (estimateUserOpGas env.rpc op).success = false) :
    (∀ details : TxDetails, details.gasLimit = none →
      (∃ msg, (createUnsignedUserOpM env details).1 = .error msg) ∧
      (∃ msg, (createSignedUserOpM env details).1 = .error msg) ∧
      Effect.signHash ∉ (createSignedUserOpM env details).2 ∧
      Effect.submit ∉ (createSignedUserOpM env details).2) ∧
    (∃ msg, (sendTransactionM env tx).1 = .error msg) ∧
    Effect.signHash ∉ (sendTransactionM env tx).2 ∧
    Effect.submit ∉ (sendTransactionM env tx).2 := by
  have main : ∀ details : TxDetails, details.gasLimit = none →
      ∃ msg t, createUnsignedUserOpM env details = (.error msg, t) ∧
        createSignedUserOpM env details = (.error msg, t) ∧
        Effect.signHash ∉ t ∧ Effect.submit ∉ t := by
    intro details hd
    obtain ⟨msg, t, henc, h1, h2⟩ := encodeUserOp_fail env details hd hfail
    have hcu : createUnsignedUserOpM env details = (.error msg, t) := by
      unfold createUnsignedUserOpM
      rw [mres_bind_def, henc]
      rfl
    have hcs : createSignedUserOpM env details = (.error msg, t) := by
      unfold createSignedUserOpM
      rw [mres_bind_def, hcu]
      rfl
    exact ⟨msg, t, hcu, hcs, h1, h2⟩
  constructor
  · intro details hd
    obtain ⟨msg, t, hcu, hcs, h1, h2⟩ := main details hd
    refine ⟨⟨msg, by rw [hcu]⟩, ⟨msg, by rw [hcs]⟩, ?_, ?_⟩
    · rw [hcs]
      exact h1
    · rw [hcs]
      exact h2
  · cases hta : tx.toAddr with
    | none =>
      have hs : sendTransactionM env tx = (.error "Missing call target", []) := by
        unfold sendTransactionM
        rw [hta]
        rfl
      rw [hs]
      exact ⟨⟨_, rfl⟩, by decide, by decide⟩
    | some a =>
      by_cases hdv : tx.data = none ∧ tx.value = none
      · have hs : sendTransactionM env tx = (.error "Missing call data or value", []) := by
          unfold sendTransactionM
          rw [hta]
          dsimp only
          rw [if_pos hdv]
          rfl
        rw [hs]
        exact ⟨⟨_, rfl⟩, by decide, by decide⟩
      · obtain ⟨msg, t, _hcu, hcs, h1, h2⟩ := main
          { target := a, data := tx.data.getD "", value := tx.value
            gasLimit := tx.gasLimit, maxFeePerGas := none
            maxPriorityFeePerGas := none, nonce := none } hgl
        have hs : sendTransactionM env tx = (.error msg, t) := by
          unfold sendTransactionM
          rw [hta]
          dsimp only
          rw [if_neg hdv, mres_bind_def, hcs]
          rfl
        rw [hs]
        exact ⟨⟨msg, rfl⟩, h1, h2⟩

/-- Witness for C7 against the concrete failing environment: the signer
entry point errors out without signing or submitting. -/
theorem estimation_failure_stops_before_signing_witness :
    (∃ msg, (sendTransactionM sampleEnv sampleTx).1 = .error msg) ∧
    Effect.signHash ∉ (sendTransactionM sampleEnv sampleTx).2 ∧
    Effect.submit ∉ (sendTransactionM sampleEnv sampleTx).2 := by
  have h := estimation_failure_stops_before_signing sampleEnv sampleTx rfl
    (fun op => rfl)
  exact h.2
